import Mathlib

/-!
# scad-server: verification of the export/summary service core

Shallow embedding of the `services` package of `scad-server` (an HTTP
façade over the OpenSCAD executable) and proofs about it.

Sources embedded:
* `src/services/convert.go` — the PNG→WebP / PNG→AVIF re-encoders
  (modelled abstractly, since their bodies are external codec calls),
  and two revisions of the OpenSCAD service (validate / extension /
  option-translation / content-type / command execution / Export /
  Summary).
* `src/unnamed/part_000` — the `models` package (request/option
  structures).

The repository's current service file (the revision whose behaviour the
in-repo tests `openscad_test.go` pin down: `validateFormat` accepting
`webp`/`avif`, `getOutputExtension "webp" = ("png", "")`,
`buildExportOptions` translating the png bag for `webp`/`avif`, and
`Export` piping webp/avif through the re-encoders) is not present under
`src/`; the service code that is present consists of stale revisions
that reject `webp`/`avif` and therefore fail the package's own tests.
Where a definition below depends on that missing revision it is marked
`Modelled from the spec:` and follows the spec §3/§4 together with the
literal strings fixed by the in-repo tests (which use the wire string
"3mf", never "threemf").

Machine integers of Go (`int`, 64-bit) are modelled as `Int`; none of
the verified properties involve overflow (only comparisons and decimal
formatting, both exact). Bytes are `List Nat`. Fallible operations
return `Except String`. Filesystem and process effects are explicit:
an environment record supplies the outcome of every external step and a
`World` state records directories, files and spawned commands.
-/

/-- Raw bytes (a Go `[]byte`). -/
abbrev ByteList := List Nat

/-- `models.PNGOptions` (src/unnamed/part_000): optional width/height.
Also used for webp and avif formats. Go `*int` becomes `Option Int`. -/
structure PNGOptions where
  width : Option Int
  height : Option Int
deriving Repr, DecidableEq

/-- `models.STLOptions`: optional decimal precision. -/
structure STLOptions where
  decimalPrecision : Option Int
deriving Repr, DecidableEq

/-- `models.SVGOptions`. Go `*float64` fields are modelled as the
already-formatted minimal decimal string (`strconv.FormatFloat _ 'f' -1 64`
is applied at the use site in the source; the float itself never
participates in arithmetic). -/
structure SVGOptions where
  fill : Option Bool
  fillColor : Option String
  stroke : Option Bool
  strokeColor : Option String
  strokeWidth : Option String
deriving Repr, DecidableEq

/-- `models.PDFOptions` (float fields as formatted strings, as above). -/
structure PDFOptions where
  paperSize : Option String
  orientation : Option String
  showGrid : Option Bool
  gridSize : Option String
  fill : Option Bool
  fillColor : Option String
  stroke : Option Bool
  strokeColor : Option String
  strokeWidth : Option String
deriving Repr, DecidableEq

/-- `models.ThreeMFOptions`. -/
structure ThreeMFOptions where
  unit : Option String
  decimalPrecision : Option Int
  color : Option String
  colorMode : Option String
  materialType : Option String
  addMetadata : Option Bool
  metadataTitle : Option String
  metadataDesigner : Option String
  metadataDesc : Option String
  metadataCopyright : Option String
deriving Repr, DecidableEq

/-- `models.ExportOptions`: the per-family option bags. -/
structure ExportOptions where
  png : Option PNGOptions
  stl : Option STLOptions
  svg : Option SVGOptions
  pdf : Option PDFOptions
  threeMF : Option ThreeMFOptions
deriving Repr, DecidableEq

/-- `models.ExportRequest`. -/
structure ExportRequest where
  scadContent : String
  format : String
  options : ExportOptions
deriving Repr, DecidableEq

/-- `models.SummaryRequest`. -/
structure SummaryRequest where
  scadContent : String
  summaryType : String
deriving Repr, DecidableEq

/-- The all-absent options bag (Go zero value of `models.ExportOptions`). -/
def emptyOptions : ExportOptions :=
  { png := none, stl := none, svg := none, pdf := none, threeMF := none }

/-- Modelled from the spec: list of accepted format strings of the current
`validateFormat` (the service revision present under `src/` omits
"webp"/"avif" and fails the repo's own `TestValidateFormat`; the test
fixes the member list used here, with the wire string "3mf"). -/
def validFormats : List String :=
  ["png", "stl_binary", "stl_ascii", "svg", "pdf", "3mf", "webp", "avif"]

/-- Modelled from the spec: `validateFormat` — membership in the fixed
enumeration, any other string rejected with an unsupported-format error
(`src/services/convert.go` lines 578-593 give the shape of the check and
the error text; the member list is as in `validFormats` above). -/
def validateFormat (format : String) : Except String Unit :=
  if validFormats.contains format then Except.ok ()
  else Except.error ("unsupported format: " ++ format)

/-- Modelled from the spec: `getOutputExtension` — `(extension, export-format
flag)` per format. The png/stl/svg/pdf/3mf arms are verbatim from
`src/services/convert.go` lines 595-612; the webp/avif arms (both render
via PNG first, no flag) follow spec §4.3 step 2 and `TestGetOutputExtension`. -/
def getOutputExtension (format : String) : String × String :=
  if format = "png" then ("png", "")
  else if format = "stl_binary" then ("stl", "binstl")
  else if format = "stl_ascii" then ("stl", "asciistl")
  else if format = "svg" then ("svg", "")
  else if format = "pdf" then ("pdf", "")
  else if format = "3mf" then ("3mf", "")
  else if format = "webp" then ("png", "")
  else if format = "avif" then ("png", "")
  else ("", "")

/-- One `-O key=value` token pair for an optional string field
(`args = append(args, "-O", fmt.Sprintf("key=%s", *v))`). -/
def optTok (key : String) (v : Option String) : List String :=
  match v with
  | some s => ["-O", key ++ "=" ++ s]
  | none => []

/-- One `-O key=%t` token pair for an optional bool field. -/
def optTokBool (key : String) (v : Option Bool) : List String :=
  match v with
  | some b => ["-O", key ++ "=" ++ toString b]
  | none => []

/-- The range-checked decimal-precision token pair: emitted only when the
value lies in [1,16], silently dropped otherwise
(`if precision >= 1 && precision <= 16`). -/
def precisionTok (key : String) (v : Option Int) : List String :=
  match v with
  | some p =>
      if 1 ≤ p ∧ p ≤ 16 then ["-O", key ++ "=" ++ toString p] else []
  | none => []

/-- The png-bag translation shared by png/webp/avif: if either dimension is
present emit one `--imgsize w,h` pair, defaulting the absent one to
800×600 (`src/services/convert.go` lines 618-631). -/
def imgsizeTok (bag : Option PNGOptions) : List String :=
  match bag with
  | some o =>
      if o.width.isSome ∨ o.height.isSome then
        ["--imgsize", toString (o.width.getD 800) ++ "," ++ toString (o.height.getD 600)]
      else []
  | none => []

/-- `buildExportOptions` (`src/services/convert.go` lines 614-730): ordered
command-line tokens from the per-format option bag. The stl / svg / pdf /
3mf arms are verbatim from the source (both revisions agree). Modelled
from the spec: the current revision routes "webp"/"avif" through the png
arm (spec §4.1 and `TestBuildExportOptions`, absent from the stale
revisions under `src/`). -/
def buildExportOptions (req : ExportRequest) : List String :=
  if req.format = "png" ∨ req.format = "webp" ∨ req.format = "avif" then
    imgsizeTok req.options.png
  else if req.format = "stl_binary" ∨ req.format = "stl_ascii" then
    match req.options.stl with
    | some o => precisionTok "export-stl/decimal-precision" o.decimalPrecision
    | none => []
  else if req.format = "svg" then
    match req.options.svg with
    | some o =>
        optTokBool "export-svg/fill" o.fill ++
        optTok "export-svg/fill-color" o.fillColor ++
        optTokBool "export-svg/stroke" o.stroke ++
        optTok "export-svg/stroke-color" o.strokeColor ++
        optTok "export-svg/stroke-width" o.strokeWidth
    | none => []
  else if req.format = "pdf" then
    match req.options.pdf with
    | some o =>
        optTok "export-pdf/paper-size" o.paperSize ++
        optTok "export-pdf/orientation" o.orientation ++
        optTokBool "export-pdf/show-grid" o.showGrid ++
        optTok "export-pdf/grid-size" o.gridSize ++
        optTokBool "export-pdf/fill" o.fill ++
        optTok "export-pdf/fill-color" o.fillColor ++
        optTokBool "export-pdf/stroke" o.stroke ++
        optTok "export-pdf/stroke-color" o.strokeColor ++
        optTok "export-pdf/stroke-width" o.strokeWidth
    | none => []
  else if req.format = "3mf" then
    match req.options.threeMF with
    | some o =>
        optTok "export-3mf/unit" o.unit ++
        precisionTok "export-3mf/decimal-precision" o.decimalPrecision ++
        optTok "export-3mf/color" o.color ++
        optTok "export-3mf/color-mode" o.colorMode ++
        optTok "export-3mf/material-type" o.materialType ++
        optTokBool "export-3mf/add-meta-data" o.addMetadata ++
        optTok "export-3mf/meta-data-title" o.metadataTitle ++
        optTok "export-3mf/meta-data-designer" o.metadataDesigner ++
        optTok "export-3mf/meta-data-description" o.metadataDesc ++
        optTok "export-3mf/meta-data-copyright" o.metadataCopyright
    | none => []
  else []

/-- `getContentType` (`src/services/convert.go` lines 732-747): fixed
content-type per format; unknown formats fall back to octet-stream.
Modelled from the spec: the webp/avif rows (`image/webp`, `image/avif`)
follow spec §6 and `TestGetContentType`, absent from the stale revisions. -/
def getContentType (format : String) : String :=
  if format = "png" then "image/png"
  else if format = "stl_binary" ∨ format = "stl_ascii" then "application/octet-stream"
  else if format = "svg" then "image/svg+xml"
  else if format = "pdf" then "application/pdf"
  else if format = "3mf" then "application/vnd.ms-package.3dmodel+xml"
  else if format = "webp" then "image/webp"
  else if format = "avif" then "image/avif"
  else "application/octet-stream"

/-- One chunk written by the child process to one of its standard streams
(`outChunk` = standard output, `errChunk` = standard error). The single
list preserves the real interleaving order in which the chunks arrived. -/
inductive OutputChunk where
  | outChunk (s : String)
  | errChunk (s : String)
deriving Repr, DecidableEq

/-- The combined buffer produced by directing both `cmd.Stdout` and
`cmd.Stderr` into the same `bytes.Buffer` (`src/services/convert.go`
lines 410-412): every chunk of either stream, in arrival order. -/
def combinedText (events : List OutputChunk) : String :=
  events.foldl
    (fun acc e =>
      match e with
      | OutputChunk.outChunk s => acc ++ s
      | OutputChunk.errChunk s => acc ++ s)
    ""

/-- Outcome of one `cmd.Run()` of the external OpenSCAD process.
`runErr` is the error value of `cmd.Run` (`none` exactly when the process
spawned and exited zero); `timedOut` models `ctx.Err() ==
context.DeadlineExceeded`; `events` are the stream chunks the child
emitted before finishing. -/
structure ProcResult where
  runErr : Option String
  timedOut : Bool
  events : List OutputChunk
deriving Repr, DecidableEq

/-- Explicit filesystem/process state threaded through the service calls:
the temp directories that currently exist, the files written (path and
content), and the argument lists of the external commands spawned so far. -/
structure World where
  dirs : List String
  files : List (String × String)
  spawned : List (List String)
deriving Repr, DecidableEq

/-- `filepath.Join` for the paths the service builds. -/
def pathJoin (dir name : String) : String := dir ++ "/" ++ name

/-- `os.RemoveAll tmpDir`: the directory and every file under it cease to
exist (the deferred cleanup of Export/Summary,
`src/services/convert.go` lines 474-479 and 529-534). -/
def removeAll (tmpDir : String) (w : World) : World :=
  { w with
      dirs := w.dirs.filter (fun d => d ≠ tmpDir)
      files := w.files.filter (fun f => ¬ (tmpDir ++ "/").isPrefixOf f.1) }

/-- Modelled from the spec: `executeCommand`
(`src/services/convert.go` lines 389-428 / 749-766) — spawn the external
tool with the given arguments under a deadline. The current revision is
absent from `src/`; per spec §4.2 step 5 both standard streams are
directed into one combined buffer (as in the revision at lines 410-412;
the stale revision at lines 755-756 captures only standard error). On a
`cmd.Run` error: deadline expiry yields the fixed timeout message,
otherwise the error carries the run error and the combined buffer text. -/
def executeCommand (proc : ProcResult) (args : List String) (w : World) :
    Except String Unit × World :=
  let w1 : World := { w with spawned := w.spawned ++ [args] }
  match proc.runErr with
  | none => (Except.ok (), w1)
  | some e =>
      if proc.timedOut then (Except.error "openscad command timed out", w1)
      else
        (Except.error ("openscad command failed: " ++ e ++ ", output: " ++
          combinedText proc.events), w1)

/-- Environment for one `Export` call: outcomes of each external step
(temp-dir creation, staging write, process run, output read) and the two
re-encoders, which are abstract byte transformers here because their
bodies (`convertPNGToWebP` / `convertPNGToAVIF`,
`src/services/convert.go` lines 19-53) are external codec calls. -/
structure ExportEnv where
  tmpDirName : String
  mkdirOk : Bool
  writeOk : Bool
  proc : ProcResult
  outputBytes : Option ByteList
  toWebP : ByteList → Except String ByteList
  toAVIF : ByteList → Except String ByteList

/-- The body of `Export` after the staging directory exists (everything
covered by the deferred `os.RemoveAll`): write the input file, build the
argument list in the fixed order, run the external tool, read the output
file, and pipe webp/avif through the re-encoder. -/
def exportBody (env : ExportEnv) (req : ExportRequest) (tmpDir : String)
    (w : World) : Except String (ByteList × String) × World :=
  let scadFile := pathJoin tmpDir "input.scad"
  if ¬ env.writeOk then
    (Except.error "failed to write SCAD file", w)
  else
    let w := { w with files := w.files ++ [(scadFile, req.scadContent)] }
    let ext := getOutputExtension req.format
    let outputFile := pathJoin tmpDir ("output." ++ ext.1)
    let args :=
      ["-o", outputFile] ++
      (if ext.2 ≠ "" then ["--export-format", ext.2] else []) ++
      buildExportOptions req ++ [scadFile]
    match executeCommand env.proc args w with
    | (Except.error e, w) => (Except.error e, w)
    | (Except.ok (), w) =>
        match env.outputBytes with
        | none => (Except.error "failed to read output file", w)
        | some data =>
            let conv : Except String ByteList :=
              if req.format = "webp" then env.toWebP data
              else if req.format = "avif" then env.toAVIF data
              else Except.ok data
            match conv with
            | Except.error e => (Except.error e, w)
            | Except.ok outBytes =>
                (Except.ok (outBytes, getContentType req.format), w)

/-- Modelled from the spec: `Export` (`src/services/convert.go` lines
463-520) — validate the format, create the staging directory, run
`exportBody`, and unconditionally remove the staging directory on every
exit path out of the body (the deferred `os.RemoveAll`, lines 474-479).
The current revision (which additionally pipes webp/avif output through
the re-encoders per spec §4.3 step 5) is absent from `src/`; the control
flow here follows the revision at lines 463-520 with that piping step
added. -/
def Export (env : ExportEnv) (req : ExportRequest) (w : World) :
    Except String (ByteList × String) × World :=
  match validateFormat req.format with
  | Except.error e => (Except.error e, w)
  | Except.ok () =>
      if ¬ env.mkdirOk then
        (Except.error "failed to create temp directory", w)
      else
        let tmpDir := env.tmpDirName
        let w := { w with dirs := w.dirs ++ [tmpDir] }
        let r := exportBody env req tmpDir w
        (r.1, removeAll tmpDir r.2)

/-- Environment for one `Summary` call: outcomes of temp-dir creation,
staging write, process run, summary-file read, and the JSON parse of the
summary file (the parsed generic mapping, or `none` on invalid JSON). -/
structure SummaryEnv where
  tmpDirName : String
  mkdirOk : Bool
  writeOk : Bool
  proc : ProcResult
  summaryBytes : Option String
  parsed : Option (List (String × String))

/-- The body of `Summary` under the deferred cleanup
(`src/services/convert.go` lines 536-575): write the input file, build
the summary-mode argument list (defaulting the kind to "all"), run the
tool, read and parse the summary file. -/
def summaryBody (env : SummaryEnv) (req : SummaryRequest) (tmpDir : String)
    (w : World) : Except String (List (String × String)) × World :=
  let scadFile := pathJoin tmpDir "input.scad"
  if ¬ env.writeOk then
    (Except.error "failed to write SCAD file", w)
  else
    let w := { w with files := w.files ++ [(scadFile, req.scadContent)] }
    let summaryFile := pathJoin tmpDir "summary.json"
    let summaryType := if req.summaryType = "" then "all" else req.summaryType
    let args :=
      ["--summary", summaryType, "--summary-file", summaryFile,
       "-o", pathJoin tmpDir "dummy.stl", scadFile]
    match executeCommand env.proc args w with
    | (Except.error e, w) => (Except.error e, w)
    | (Except.ok (), w) =>
        match env.summaryBytes with
        | none => (Except.error "failed to read summary file", w)
        | some _ =>
            match env.parsed with
            | none => (Except.error "failed to parse summary JSON", w)
            | some summary => (Except.ok summary, w)

/-- `Summary` (`src/services/convert.go` lines 523-576): create the staging
directory, run `summaryBody`, and unconditionally remove the staging
directory on every exit path out of the body (the deferred
`os.RemoveAll`, lines 529-534). -/
def Summary (env : SummaryEnv) (req : SummaryRequest) (w : World) :
    Except String (List (String × String)) × World :=
  if ¬ env.mkdirOk then
    (Except.error "failed to create temp directory", w)
  else
    let tmpDir := env.tmpDirName
    let w := { w with dirs := w.dirs ++ [tmpDir] }
    let r := summaryBody env req tmpDir w
    (r.1, removeAll tmpDir r.2)

/-- Helper request constructors for the statements below. -/
def mkReq (f : String) (opts : ExportOptions) : ExportRequest :=
  { scadContent := "cube([10,10,10]);", format := f, options := opts }

/-- Options bag holding only the png family with the given dimensions. -/
def pngBag (wOpt hOpt : Option Int) : ExportOptions :=
  { emptyOptions with png := some { width := wOpt, height := hOpt } }

/-- Options bag holding only the stl family with the given precision. -/
def stlBag (p : Option Int) : ExportOptions :=
  { emptyOptions with stl := some { decimalPrecision := p } }

/-- Options bag holding only the 3mf family with the given precision. -/
def threeMFBag (p : Option Int) : ExportOptions :=
  { emptyOptions with
      threeMF := some ⟨none, p, none, none, none, none, none, none, none, none⟩ }

/-- C2 counterexample: the claim lists "threemf" among the accepted format
strings, but the service's 3MF wire string is "3mf" (fixed by the repo's
own tests and every service revision under src/); the literal string
"threemf" is rejected with an unsupported-format error. -/
theorem validateFormat_rejects_threemf :
    validateFormat "threemf" = Except.error "unsupported format: threemf" := rfl

/-- C2 (amended): `validateFormat` accepts a format string iff it is one of
png, stl_binary, stl_ascii, svg, pdf, 3mf, webp, avif; every other string
(including the empty string and "threemf") is rejected with an
unsupported-format error naming the offending string. -/
theorem validateFormat_accepts_iff (f : String) :
    (validateFormat f = Except.ok () ↔
      (f = "png" ∨ f = "stl_binary" ∨ f = "stl_ascii" ∨ f = "svg" ∨
       f = "pdf" ∨ f = "3mf" ∨ f = "webp" ∨ f = "avif")) ∧
    (¬ (f = "png" ∨ f = "stl_binary" ∨ f = "stl_ascii" ∨ f = "svg" ∨
        f = "pdf" ∨ f = "3mf" ∨ f = "webp" ∨ f = "avif") →
      validateFormat f = Except.error ("unsupported format: " ++ f)) := by
  unfold validateFormat validFormats
  constructor
  · constructor
    · intro h
      by_contra hne
      push_neg at hne
      obtain ⟨h1, h2, h3, h4, h5, h6, h7, h8⟩ := hne
      simp [h1, h2, h3, h4, h5, h6, h7, h8] at h
    · intro h
      rcases h with h | h | h | h | h | h | h | h <;> subst h <;> rfl
  · intro hne
    push_neg at hne
    obtain ⟨h1, h2, h3, h4, h5, h6, h7, h8⟩ := hne
    simp [h1, h2, h3, h4, h5, h6, h7, h8]

/-- C2 witness: the amended theorem applied at the concrete string "foo". -/
theorem validateFormat_accepts_iff_witness :
    validateFormat "foo" = Except.error "unsupported format: foo" :=
  (validateFormat_accepts_iff "foo").2 (by decide)

/-- C3: `getOutputExtension` returns exactly the claimed (extension,
sub-format) pairs for stl_binary, stl_ascii, png, webp and avif. -/
theorem getOutputExtension_pairs :
    getOutputExtension "stl_binary" = ("stl", "binstl") ∧
    getOutputExtension "stl_ascii" = ("stl", "asciistl") ∧
    getOutputExtension "png" = ("png", "") ∧
    getOutputExtension "webp" = ("png", "") ∧
    getOutputExtension "avif" = ("png", "") := by
  refine ⟨rfl, rfl, rfl, rfl, rfl⟩

/-- C5: whenever `cmd.Run` reports an error (non-zero exit or spawn
failure) and the deadline has not expired, the error returned by
`executeCommand` carries verbatim the combined text of every chunk the
child wrote to standard output and standard error, in arrival order. -/
theorem executeCommand_error_combined (proc : ProcResult) (args : List String)
    (w : World) (e : String)
    (he : proc.runErr = some e) (ht : proc.timedOut = false) :
    (executeCommand proc args w).1 =
      Except.error ("openscad command failed: " ++ e ++ ", output: " ++
        combinedText proc.events) := by
  simp [executeCommand, he, ht]

/-- C5 witness: a run that fails with chunks on both streams; the error
text contains the standard-output chunk and the standard-error chunk. -/
theorem executeCommand_error_combined_witness :
    (executeCommand
        { runErr := some "exit status 1", timedOut := false,
          events := [OutputChunk.outChunk "ERROR: ", OutputChunk.errChunk "syntax error"] }
        ["-o", "/tmp/scad-export-1/output.png", "/tmp/scad-export-1/input.scad"]
        { dirs := [], files := [], spawned := [] }).1 =
      Except.error
        "openscad command failed: exit status 1, output: ERROR: syntax error" := by
  have h := executeCommand_error_combined
    { runErr := some "exit status 1", timedOut := false,
      events := [OutputChunk.outChunk "ERROR: ", OutputChunk.errChunk "syntax error"] }
    ["-o", "/tmp/scad-export-1/output.png", "/tmp/scad-export-1/input.scad"]
    { dirs := [], files := [], spawned := [] } "exit status 1" rfl rfl
  simpa [combinedText] using h

/-- C7: for stl_binary, stl_ascii and 3mf, a supplied decimal precision p
yields exactly one precision override token pair when 1 ≤ p ≤ 16, and no
token at all (and no error — the translator is total) for any p outside
that range. -/
theorem precision_range_checked (p : Int) :
    buildExportOptions (mkReq "stl_binary" (stlBag (some p))) =
      (if 1 ≤ p ∧ p ≤ 16 then ["-O", "export-stl/decimal-precision=" ++ toString p] else []) ∧
    buildExportOptions (mkReq "stl_ascii" (stlBag (some p))) =
      (if 1 ≤ p ∧ p ≤ 16 then ["-O", "export-stl/decimal-precision=" ++ toString p] else []) ∧
    buildExportOptions (mkReq "3mf" (threeMFBag (some p))) =
      (if 1 ≤ p ∧ p ≤ 16 then ["-O", "export-3mf/decimal-precision=" ++ toString p] else []) := by
  refine ⟨?_, ?_, ?_⟩ <;>
    simp [buildExportOptions, mkReq, stlBag, threeMFBag, emptyOptions,
      precisionTok, optTok, optTokBool]

/-- C8: for png, webp and avif, a present width or height yields exactly
one `--imgsize w,h` pair with the absent dimension defaulted to 800×600;
with neither present, or with no png bag at all, no image-size token is
emitted. -/
theorem imgsize_translation (wOpt hOpt : Option Int) :
    (buildExportOptions (mkReq "png" (pngBag wOpt hOpt)) =
      (if wOpt = none ∧ hOpt = none then []
       else ["--imgsize", toString (wOpt.getD 800) ++ "," ++ toString (hOpt.getD 600)])) ∧
    (buildExportOptions (mkReq "webp" (pngBag wOpt hOpt)) =
      (if wOpt = none ∧ hOpt = none then []
       else ["--imgsize", toString (wOpt.getD 800) ++ "," ++ toString (hOpt.getD 600)])) ∧
    (buildExportOptions (mkReq "avif" (pngBag wOpt hOpt)) =
      (if wOpt = none ∧ hOpt = none then []
       else ["--imgsize", toString (wOpt.getD 800) ++ "," ++ toString (hOpt.getD 600)])) ∧
    buildExportOptions (mkReq "png" emptyOptions) = [] ∧
    buildExportOptions (mkReq "webp" emptyOptions) = [] ∧
    buildExportOptions (mkReq "avif" emptyOptions) = [] := by
  refine ⟨?_, ?_, ?_, by decide, by decide, by decide⟩ <;>
    cases wOpt <;> cases hOpt <;>
      simp [buildExportOptions, mkReq, pngBag, emptyOptions, imgsizeTok]

/-- C10: image dimensions are never range-checked — for format png any
present integer width and height, including zero and negative values, is
forwarded verbatim (decimal-formatted) into the `--imgsize` value `w,h`. -/
theorem imgsize_dims_unchecked (wv hv : Int) :
    buildExportOptions (mkReq "png" (pngBag (some wv) (some hv))) =
      ["--imgsize", toString wv ++ "," ++ toString hv] := by
  simp [buildExportOptions, mkReq, pngBag, emptyOptions, imgsizeTok]

/-- A world with nothing in it (used by the concrete witnesses below). -/
def emptyWorld : World := { dirs := [], files := [], spawned := [] }

/-- A concrete all-steps-succeed export environment for witnesses: the
rendered output is a PNG header, the re-encoders return fixed container
headers (RIFF for WebP, an ftyp box start for AVIF). -/
def okExportEnv : ExportEnv :=
  { tmpDirName := "/tmp/scad-export-1"
    mkdirOk := true
    writeOk := true
    proc := { runErr := none, timedOut := false, events := [] }
    outputBytes := some [137, 80, 78, 71]
    toWebP := fun _ => Except.ok [82, 73, 70, 70]
    toAVIF := fun _ => Except.ok [0, 0, 0, 28] }

/-- A concrete all-steps-succeed summary environment for witnesses. -/
def okSummaryEnv : SummaryEnv :=
  { tmpDirName := "/tmp/scad-summary-1"
    mkdirOk := true
    writeOk := true
    proc := { runErr := none, timedOut := false, events := [] }
    summaryBytes := some "{}"
    parsed := some [("geometry", "{}")] }

/-- C1: on the fully successful path, when the requested format is webp or
avif the returned bytes are exactly the re-encoder applied to the rendered
PNG bytes (errors of the re-encoder propagate); for every other valid
format the raw output-file bytes are returned unchanged, with the format's
content type. -/
theorem export_reencodes_webp_avif (env : ExportEnv) (req : ExportRequest)
    (w : World) (d : ByteList)
    (hv : validateFormat req.format = Except.ok ())
    (hm : env.mkdirOk = true) (hw : env.writeOk = true)
    (hp : env.proc.runErr = none) (hr : env.outputBytes = some d) :
    (Export env req w).1 =
      Except.map (fun b => (b, getContentType req.format))
        (if req.format = "webp" then env.toWebP d
         else if req.format = "avif" then env.toAVIF d
         else Except.ok d) := by
  by_cases hwp : req.format = "webp"
  · simp only [Export, exportBody, executeCommand, hv, hm, hw, hp, hr]
    cases henc : env.toWebP d <;>
      simp [hwp, henc, Except.map, removeAll]
  · by_cases hav : req.format = "avif"
    · simp only [Export, exportBody, executeCommand, hv, hm, hw, hp, hr]
      cases henc : env.toAVIF d <;>
        simp [hwp, hav, henc, Except.map, removeAll]
    · simp only [Export, exportBody, executeCommand, hv, hm, hw, hp, hr]
      simp [hwp, hav, Except.map, removeAll]

/-- C1 witness: a webp request on the successful path returns exactly the
re-encoder's output with the webp content type. -/
theorem export_reencodes_webp_avif_witness :
    (Export okExportEnv (mkReq "webp" emptyOptions) emptyWorld).1 =
      Except.ok ([82, 73, 70, 70], "image/webp") := by
  have h := export_reencodes_webp_avif okExportEnv (mkReq "webp" emptyOptions)
    emptyWorld [137, 80, 78, 71] rfl rfl rfl rfl rfl
  simpa [okExportEnv, mkReq, getContentType, Except.map] using h

/-- C4: for every Export call and every Summary call, over every outcome of
every external step (success, staging-write failure, process failure or
deadline expiry, output-read failure), the staging directory created for
the call no longer exists in the final world, given that its unique name
was fresh beforehand. -/
theorem staging_dir_removed (envE : ExportEnv) (reqE : ExportRequest)
    (w1 : World) (envS : SummaryEnv) (reqS : SummaryRequest) (w2 : World)
    (hE : envE.tmpDirName ∉ w1.dirs) (hS : envS.tmpDirName ∉ w2.dirs) :
    envE.tmpDirName ∉ ((Export envE reqE w1).2).dirs ∧
    envS.tmpDirName ∉ ((Summary envS reqS w2).2).dirs := by
  constructor
  · unfold Export
    cases hv : validateFormat reqE.format with
    | error e => simpa using hE
    | ok u =>
        obtain ⟨⟩ := u
        by_cases hm : envE.mkdirOk
        · simp [hm, removeAll, List.mem_filter]
        · simpa [hm] using hE
  · unfold Summary
    by_cases hm : envS.mkdirOk
    · simp [hm, removeAll, List.mem_filter]
    · simpa [hm] using hS

/-- C4 witness: the freshness hypotheses hold in the empty world, and the
staging directories of a concrete Export call and a concrete Summary call
are gone afterwards. -/
theorem staging_dir_removed_witness :
    okExportEnv.tmpDirName ∉ ((Export okExportEnv (mkReq "png" emptyOptions) emptyWorld).2).dirs ∧
    okSummaryEnv.tmpDirName ∉ ((Summary okSummaryEnv { scadContent := "cube([10,10,10]);", summaryType := "" } emptyWorld).2).dirs :=
  staging_dir_removed okExportEnv (mkReq "png" emptyOptions) emptyWorld
    okSummaryEnv { scadContent := "cube([10,10,10]);", summaryType := "" } emptyWorld
    (by simp [emptyWorld]) (by simp [emptyWorld])

/-- C6: on every call that reaches the spawn (valid format, staging
succeeded), the argument list handed to the external tool is exactly: the
output flag and output path first, then the export-format flag pair when
the sub-format is non-empty, then the format-specific option tokens, and
the input file path as the final element. -/
theorem export_arg_order (env : ExportEnv) (req : ExportRequest) (w : World)
    (hv : validateFormat req.format = Except.ok ())
    (hm : env.mkdirOk = true) (hw : env.writeOk = true) :
    ((Export env req w).2).spawned = w.spawned ++
      [["-o", pathJoin env.tmpDirName ("output." ++ (getOutputExtension req.format).1)] ++
       (if (getOutputExtension req.format).2 ≠ "" then
          ["--export-format", (getOutputExtension req.format).2] else []) ++
       buildExportOptions req ++ [pathJoin env.tmpDirName "input.scad"]] := by
  simp only [Export, exportBody, executeCommand, hv, hm, hw]
  cases hp : env.proc.runErr with
  | none =>
      cases hr : env.outputBytes with
      | none => simp [removeAll]
      | some d =>
          by_cases hwp : req.format = "webp"
          · simp only [hwp]
            cases henc : env.toWebP d <;> simp [henc, removeAll]
          · by_cases hav : req.format = "avif"
            · simp only [hav, hwp, if_false]
              cases henc : env.toAVIF d <;> simp [henc, hwp, removeAll]
            · simp [hwp, hav, removeAll]
  | some e =>
      by_cases ht : env.proc.timedOut <;> simp [ht, removeAll]

/-- C6 witness: a binary-STL export with precision 6 spawns exactly one
command whose argument list is in the fixed order, input path last. -/
theorem export_arg_order_witness :
    ((Export okExportEnv (mkReq "stl_binary" (stlBag (some 6))) emptyWorld).2).spawned =
      [["-o", "/tmp/scad-export-1/output.stl", "--export-format", "binstl",
        "-O", "export-stl/decimal-precision=6", "/tmp/scad-export-1/input.scad"]] :=
  (export_arg_order okExportEnv (mkReq "stl_binary" (stlBag (some 6)))
    emptyWorld rfl rfl rfl).trans (by decide)

/-- C9: whenever the requested format fails validation, Export returns the
unsupported-format error with the world unchanged: no temp directory is
created, no file is written, no external process is spawned. -/
theorem export_fail_fast_invalid (env : ExportEnv) (req : ExportRequest)
    (w : World) (e : String)
    (h : validateFormat req.format = Except.error e) :
    Export env req w = (Except.error e, w) := by
  simp [Export, h]

/-- C9 witness: a request with format "invalid_format" is rejected with
the world left exactly as it was. -/
theorem export_fail_fast_invalid_witness :
    Export okExportEnv (mkReq "invalid_format" emptyOptions) emptyWorld =
      (Except.error "unsupported format: invalid_format", emptyWorld) :=
  export_fail_fast_invalid okExportEnv (mkReq "invalid_format" emptyOptions)
    emptyWorld "unsupported format: invalid_format" rfl
